import Mathlib

/-!
# collective.whathappened — SQLite storage backend, shallow embedding

This file embeds the per-user notification storage engine of
`collective/whathappened/storage_backend.py` (class `SqliteStorageBackend`)
and proves or refutes the frozen claims about it.

Modelling conventions:
* The three SQLite tables are lists of rows (`Store`).  Row order is table
  insertion order; primary-key uniqueness is enforced by the embedded
  `INSERT` statements exactly where sqlite3 would raise `IntegrityError`.
* `sqlite3` is used by the source with foreign-key enforcement at its
  default (`PRAGMA foreign_keys = OFF`), so the `ON DELETE CASCADE` clause
  of `notifications_who` is inert and deletes never cascade.
* Timestamps (`when` columns, `datetime` values) are modelled as `Int`
  epoch seconds; `datetime.timedelta(7)` is `7 * 86400` seconds.
  `Notification.getWhenTimestamp()` is the integer form of the `when`
  field (spec §4.1: "expose the integer timestamp form of `when` for
  storage keys"); the model carries that integer directly as `whenTs`.
* The `info` payload is carried in its `json.dumps` serialized text form;
  the source both stores and compares `info` through `json.dumps`, so
  equality of the serialized strings is the source's equality.
* Python exceptions that a statement can raise are made explicit
  (`PyError`); a statement that raises leaves the effects of earlier
  statements in place (sqlite3 does not roll back on a failed statement
  inside the same connection).
* `self.db` is `Backend.db : Option Store`: `none` is a closed session.
  Calling a method on a closed session models `self.db.execute(...)` on
  `None` as `AttributeError` wherever the source has no `if self.db is
  None` guard.
-/

inductive PyError where
  | integrityError
  | operationalError
  | attributeError
  | typeError
deriving DecidableEq, Repr

/-- A candidate notification as handed to the backend
(fields of the `Notification` entity used by `storage_backend.py`;
`whenTs` is `getWhenTimestamp()`, `info` its `json.dumps` form). -/
structure Notification where
  what : String
  whenTs : Int
  where_ : String
  who : List String
  gatherer : String
  seen : Bool
  info : String
deriving DecidableEq, Repr

/-- A row of the `notifications` table; primary key (`what`, `when`, `where`). -/
structure NotificationRow where
  what : String
  when : Int
  where_ : String
  seen : Bool
  gatherer : String
  info : String
deriving DecidableEq, Repr

/-- A row of the `notifications_who` table;
primary key (`what`, `when`, `where`, `who`). -/
structure WhoRow where
  what : String
  when : Int
  where_ : String
  who : String
deriving DecidableEq, Repr

/-- A row of the `subscriptions` table; primary key `where`.
The `wants` column only ever holds an integer written from a Python
boolean (the `None` case deletes the row instead), hence `Bool`. -/
structure SubscriptionRow where
  where_ : String
  wants : Bool
deriving DecidableEq, Repr

/-- The subscription entity handed to `saveSubscription`:
`wants` is tri-state (`some true` / `some false` / `none`). -/
structure Subscription where
  where_ : String
  wants : Option Bool
deriving DecidableEq, Repr

/-- The contents of one per-user sqlite database. -/
structure Store where
  notifications : List NotificationRow
  notifications_who : List WhoRow
  subscriptions : List SubscriptionRow
deriving DecidableEq, Repr

/-- The backend's session state: `db = none` models `self.db is None`. -/
structure Backend where
  db : Option Store
deriving DecidableEq, Repr

/-- Domain events dispatched by `saveSubscription` via `zope.event`. -/
inductive DomainEvent where
  | subscribedEvent (where_ : String)
  | blacklistedEvent (where_ : String)
deriving DecidableEq, Repr

/-- Key equality test against the `notifications` primary key
(`what`, `when`, `where`). -/
def NotificationRow.sameKey (r : NotificationRow) (what : String) (whn : Int)
    (whr : String) : Bool :=
  r.what == what && r.when == whn && r.where_ == whr

/-- `INSERT INTO notifications ...`: raises `IntegrityError` when a row with
the same primary key (`what`, `when`, `where`) exists. -/
def insertNotificationRow (s : Store) (r : NotificationRow) :
    Except PyError Store :=
  if s.notifications.any (fun q => q.sameKey r.what r.when r.where_) then
    .error .integrityError
  else
    .ok { s with notifications := s.notifications ++ [r] }

/-- `INSERT INTO notifications_who ...`: raises `IntegrityError` when a row
with the same primary key (`what`, `when`, `where`, `who`) exists. -/
def insertWhoRow (s : Store) (r : WhoRow) : Except PyError Store :=
  if s.notifications_who.any
      (fun q => q.what == r.what && q.when == r.when &&
        q.where_ == r.where_ && q.who == r.who) then
    .error .integrityError
  else
    .ok { s with notifications_who := s.notifications_who ++ [r] }

/-- `SqliteStorageBackend._notificationExist`: is there an unseen row with
the same (`what`, `where`, `info`)? -/
def _notificationExist (s : Store) (n : Notification) : Bool :=
  s.notifications.any (fun r =>
    r.what == n.what && r.where_ == n.where_ && r.info == n.info &&
      r.seen == false)

/-- `SqliteStorageBackend._updateNotification`.  The source first runs
`SELECT when ... WHERE what = ? AND where = ? AND seen = 0` and subscripts
`fetchone()` without using the value (raising `TypeError` when no row
matches, since `fetchone()` is then `None`); it then inserts one
`notifications_who` row per actor, keyed by the INCOMING notification's
`getWhenTimestamp()` — not the selected existing `when` — swallowing each
`IntegrityError` individually. -/
def _updateNotification (s : Store) (n : Notification) :
    Store × Option PyError :=
  if s.notifications.any (fun r =>
      r.what == n.what && r.where_ == n.where_ && r.seen == false) then
    (n.who.foldl (fun st w =>
      match insertWhoRow st ⟨n.what, n.whenTs, n.where_, w⟩ with
      | .error _ => st
      | .ok st' => st') s, none)
  else
    (s, some .typeError)

/-- Insert one `notifications_who` row per actor in order; the first
`IntegrityError` aborts the loop but keeps earlier inserts
(used by `_createNotification`, whose actor loop has no try/except). -/
def insertWhoRows (s : Store) (n : Notification) :
    List String → Store × Option PyError
  | [] => (s, none)
  | w :: ws =>
    match insertWhoRow s ⟨n.what, n.whenTs, n.where_, w⟩ with
    | .error e => (s, some e)
    | .ok s' => insertWhoRows s' n ws

/-- The `notifications` row written for a notification. -/
def Notification.row (n : Notification) : NotificationRow :=
  ⟨n.what, n.whenTs, n.where_, n.seen, n.gatherer, n.info⟩

/-- `SqliteStorageBackend._createNotification`: insert the notification row,
then one association row per actor; any `IntegrityError` propagates to the
caller with the effects of the earlier statements kept. -/
def _createNotification (s : Store) (n : Notification) :
    Store × Option PyError :=
  match insertNotificationRow s n.row with
  | .error e => (s, some e)
  | .ok s1 => insertWhoRows s1 n n.who

/-- `SqliteStorageBackend.storeNotification`: no-op on a closed session;
otherwise merge (`_updateNotification`) when an unseen (`what`, `where`,
`info`) match exists, else insert (`_createNotification`); `IntegrityError`
is swallowed, anything else would propagate. -/
def storeNotification (b : Backend) (n : Notification) :
    Except PyError Unit × Backend :=
  match b.db with
  | none => (.ok (), b)
  | some s =>
    if _notificationExist s n then
      match _updateNotification s n with
      | (s', none) => (.ok (), ⟨some s'⟩)
      | (s', some .integrityError) => (.ok (), ⟨some s'⟩)
      | (s', some e) => (.error e, ⟨some s'⟩)
    else
      match _createNotification s n with
      | (s', none) => (.ok (), ⟨some s'⟩)
      | (s', some .integrityError) => (.ok (), ⟨some s'⟩)
      | (s', some e) => (.error e, ⟨some s'⟩)

/-- `SqliteStorageBackend.removeNotification`: no-op on a closed session;
deletes the `notifications` rows matching (`what`, `when`, `where`).
Foreign keys are off, so the association rows are NOT cascaded. -/
def removeNotification (b : Backend) (n : Notification) :
    Except PyError Unit × Backend :=
  match b.db with
  | none => (.ok (), b)
  | some s =>
    let keep := s.notifications.filter
      (fun r => !(r.sameKey n.what n.whenTs n.where_))
    (.ok (), ⟨some { s with notifications := keep }⟩)

/-- One aggregated record of the grouped read queries: a `notifications`
row with `who` reconstructed by `GROUP_CONCAT` over the joined
`notifications_who` rows (modelled as the list of associated actors in
table order; `_createNotificationFromResult` turns a NULL concat into
an empty list). -/
structure GroupedRow where
  what : String
  when : Int
  where_ : String
  who : List String
  gatherer : String
  seen : Bool
  info : String
deriving DecidableEq, Repr

/-- The actors associated to a notification row (join on the three-column
key, in `notifications_who` table order). -/
def Store.whoOf (s : Store) (r : NotificationRow) : List String :=
  (s.notifications_who.filter (fun w =>
    w.what == r.what && w.when == r.when && w.where_ == r.where_)).map
    (fun w => w.who)

/-- The aggregated record for one notification row. -/
def Store.groupRow (s : Store) (r : NotificationRow) : GroupedRow :=
  ⟨r.what, r.when, r.where_, s.whoOf r, r.gatherer, r.seen, r.info⟩

/-- Does a notification row have at least one associated actor row?
(`INNER JOIN` keeps exactly these rows.) -/
def Store.hasWho (s : Store) (r : NotificationRow) : Bool :=
  s.notifications_who.any (fun w =>
    w.what == r.what && w.when == r.when && w.where_ == r.where_)

/-- `ORDER BY n.seen ASC, n.when DESC` of `getHotNotifications`:
unseen (`seen` stored as 0) before seen (1), then newest first. -/
def hotOrder (a b : GroupedRow) : Prop :=
  a.seen.toNat < b.seen.toNat ∨ (a.seen = b.seen ∧ b.when ≤ a.when)

instance : DecidableRel hotOrder := fun a b => by
  unfold hotOrder; infer_instance

instance : IsTotal GroupedRow hotOrder where
  total a b := by
    unfold hotOrder
    rcases Nat.lt_trichotomy a.seen.toNat b.seen.toNat with h | h | h
    · exact Or.inl (Or.inl h)
    · have hs : a.seen = b.seen := by
        cases ha : a.seen <;> cases hb : b.seen <;>
          simp [ha, hb] at h ⊢
      rcases le_total b.when a.when with hw | hw
      · exact Or.inl (Or.inr ⟨hs, hw⟩)
      · exact Or.inr (Or.inr ⟨hs.symm, hw⟩)
    · exact Or.inr (Or.inl h)

instance : IsTrans GroupedRow hotOrder where
  trans a b c hab hbc := by
    unfold hotOrder at hab hbc ⊢
    rcases hab with h1 | ⟨h1, h1w⟩ <;> rcases hbc with h2 | ⟨h2, h2w⟩
    · exact Or.inl (h1.trans h2)
    · exact Or.inl (by rw [← h2]; exact h1)
    · exact Or.inl (by rw [h1]; exact h2)
    · exact Or.inr ⟨h1.trans h2, h2w.trans h1w⟩

/-- `ORDER BY n.when DESC` of `getAllNotifications` /
`getUnseenNotifications`: newest first. -/
def whenDesc (a b : GroupedRow) : Prop := b.when ≤ a.when

instance : DecidableRel whenDesc := fun a b => by
  unfold whenDesc; infer_instance

instance : IsTotal GroupedRow whenDesc where
  total a b := le_total b.when a.when

instance : IsTrans GroupedRow whenDesc where
  trans _ _ _ hab hbc := le_trans hbc hab

/-- `SqliteStorageBackend.getHotNotifications`: empty on a closed session;
otherwise `LEFT JOIN` (every notification row appears, actor-less ones with
an empty `who`), grouped by key, ordered by `seen ASC, when DESC`,
`LIMIT 5`. -/
def getHotNotifications (b : Backend) :
    Except PyError (List GroupedRow) × Backend :=
  match b.db with
  | none => (.ok [], b)
  | some s =>
    (.ok (((s.notifications.map s.groupRow).insertionSort hotOrder).take 5),
      b)

/-- `SqliteStorageBackend.getAllNotifications`: empty on a closed session;
otherwise `INNER JOIN` (only rows with at least one actor), grouped,
ordered by `when DESC`. -/
def getAllNotifications (b : Backend) :
    Except PyError (List GroupedRow) × Backend :=
  match b.db with
  | none => (.ok [], b)
  | some s =>
    (.ok (((s.notifications.filter s.hasWho).map s.groupRow).insertionSort
      whenDesc), b)

/-- `SqliteStorageBackend.getUnseenNotifications`: like `getAllNotifications`
restricted to `seen = 0`. -/
def getUnseenNotifications (b : Backend) :
    Except PyError (List GroupedRow) × Backend :=
  match b.db with
  | none => (.ok [], b)
  | some s =>
    (.ok ((((s.notifications.filter (fun r => !r.seen)).filter
      s.hasWho).map s.groupRow).insertionSort whenDesc), b)

/-- `SqliteStorageBackend.setSeen`: the source has NO closed-session guard,
so on a closed session `self.db.execute` raises `AttributeError`; otherwise
`UPDATE notifications SET seen = 1` (optionally restricted to
`where = path`). -/
def setSeen (b : Backend) (path : Option String) :
    Except PyError Unit × Backend :=
  match b.db with
  | none => (.error .attributeError, b)
  | some s =>
    match path with
    | none =>
      let upd := s.notifications.map (fun r => { r with seen := true })
      (.ok (), ⟨some { s with notifications := upd }⟩)
    | some p =>
      let upd := s.notifications.map (fun r =>
        if r.where_ == p then { r with seen := true } else r)
      (.ok (), ⟨some { s with notifications := upd }⟩)

/-- `SqliteStorageBackend.getUnseenCount`: 0 on a closed session, else the
number of `notifications` rows with `seen = 0`. -/
def getUnseenCount (b : Backend) : Except PyError Nat × Backend :=
  match b.db with
  | none => (.ok 0, b)
  | some s =>
    (.ok (s.notifications.filter (fun r => !r.seen)).length, b)

/-- `SqliteStorageBackend.clean`: the source statement is
`REMOVE FROM notifications WHERE when < ?` — `REMOVE` is not SQL, so
sqlite3 raises `OperationalError` at prepare time and no row is touched
(and there is no closed-session guard either: a closed session raises
`AttributeError`).  The bare statement is not wrapped in any try/except,
so the exception propagates to the caller. -/
def clean (b : Backend) (now : Int) : Except PyError Unit × Backend :=
  match b.db with
  | none => (.error .attributeError, b)
  | some _ =>
    let _lastWeek := now - 7 * 86400
    (.error .operationalError, b)

/-- Largest `when` among the notification rows
(`SELECT when ... ORDER BY when DESC LIMIT 1` on a non-empty table). -/
def lastWhen : List NotificationRow → Option Int
  | [] => none
  | r :: rs =>
    match lastWhen rs with
    | none => some r.when
    | some t => some (max r.when t)

/-- `SqliteStorageBackend.getLastNotificationTime`: the whole body is in a
bare `try/except`, so a closed session (`AttributeError`) or an empty table
(`fetchone()` is `None`, subscripting raises `TypeError`) both fall back to
`now - timedelta(7)`; otherwise the greatest `when`. -/
def getLastNotificationTime (b : Backend) (now : Int) :
    Except PyError Int × Backend :=
  match b.db with
  | none => (.ok (now - 7 * 86400), b)
  | some s =>
    match lastWhen s.notifications with
    | none => (.ok (now - 7 * 86400), b)
    | some t => (.ok t, b)

/-- ASCII lower-casing, as SQLite's default `LIKE` applies to the
ASCII range (ICU is not loaded by the source). -/
def asciiLower (c : Char) : Char :=
  if 65 ≤ c.toNat ∧ c.toNat ≤ 90 then Char.ofNat (c.toNat + 32) else c

/-- SQLite's default `LIKE` on pattern/text character lists, with explicit
fuel (every recursive call shrinks `p.length + s.length`, so
`p.length + s.length < fuel` makes the fuel irrelevant): `%` matches any
(possibly empty) sequence, `_` matches exactly one character, every other
pattern character matches ASCII-case-insensitively. -/
def likeMatchF : Nat → List Char → List Char → Bool
  | 0, _, _ => false
  | _ + 1, [], [] => true
  | _ + 1, [], _ :: _ => false
  | f + 1, c :: p, s =>
    if c = '%' then
      likeMatchF f p s ||
        (match s with
         | [] => false
         | _ :: s' => likeMatchF f (c :: p) s')
    else if c = '_' then
      match s with
      | [] => false
      | _ :: s' => likeMatchF f p s'
    else
      match s with
      | [] => false
      | d :: s' => (asciiLower c == asciiLower d) && likeMatchF f p s'

/-- SQLite's default `LIKE`, with enough fuel to run to completion. -/
def likeMatch (p s : List Char) : Bool :=
  likeMatchF (p.length + s.length + 1) p s

/-- `where LIKE ?` with parameter `'%s%%' % subscription.where`,
i.e. the pattern is the subscription path followed by `%`. -/
def likePrefixPat (pat text : String) : Bool :=
  likeMatch (pat.data ++ ['%']) text.data

/-- `SqliteStorageBackend.saveSubscription`.  The returned triple is
(outcome, session state, dispatched domain event).  On a closed session the
very first `self.db.execute` raises `AttributeError`, which the
`except sqlite3.IntegrityError` does not catch, so it propagates before any
effect.  On an open session: `wants is None` deletes the subscription row;
otherwise insert, falling back to `UPDATE` on a primary-key conflict; then,
whenever `wants` is not truthy (`None` or `False`), every `notifications`
row whose `where` is `LIKE` the subscription path followed by `%` is
deleted; finally a `SubscribedEvent` is dispatched when `wants` is truthy
and a `BlacklistedEvent` otherwise (the `subscription is None` arm of the
source is unreachable for an actual subscription argument). -/
def saveSubscription (b : Backend) (sub : Subscription) :
    Except PyError Unit × Backend × Option DomainEvent :=
  match b.db with
  | none => (.error .attributeError, b, none)
  | some s =>
    let s1 : Store :=
      match sub.wants with
      | none =>
        { s with subscriptions :=
            s.subscriptions.filter (fun r => !(r.where_ == sub.where_)) }
      | some w =>
        if s.subscriptions.any (fun r => r.where_ == sub.where_) then
          { s with subscriptions := s.subscriptions.map (fun r =>
              if r.where_ == sub.where_ then { r with wants := w } else r) }
        else
          { s with subscriptions := s.subscriptions ++ [⟨sub.where_, w⟩] }
    let s2 : Store :=
      if sub.wants = some true then s1
      else
        { s1 with notifications := s1.notifications.filter (fun r =>
            !(likePrefixPat sub.where_ r.where_)) }
    let ev : DomainEvent :=
      if sub.wants = some true then .subscribedEvent sub.where_
      else .blacklistedEvent sub.where_
    (.ok (), ⟨some s2⟩, some ev)

/-- `SqliteStorageBackend.getSubscription`: no closed-session guard
(`AttributeError` on a closed session); otherwise the first `subscriptions`
row with an exactly matching `where` (SQL `=` on TEXT is case-sensitive),
`none` when absent (`_createSubscriptionFromResult` reads `wants == 1`). -/
def getSubscription (b : Backend) (whr : String) :
    Except PyError (Option Subscription) × Backend :=
  match b.db with
  | none => (.error .attributeError, b)
  | some s =>
    match s.subscriptions.filter (fun r => r.where_ == whr) with
    | [] => (.ok none, b)
    | r :: _ => (.ok (some ⟨r.where_, some r.wants⟩), b)

/-- `SqliteStorageBackend.getSubscriptions`: no closed-session guard;
otherwise every `subscriptions` row as a `Subscription`. -/
def getSubscriptions (b : Backend) :
    Except PyError (List Subscription) × Backend :=
  match b.db with
  | none => (.error .attributeError, b)
  | some s =>
    (.ok (s.subscriptions.map (fun r => ⟨r.where_, some r.wants⟩)), b)

/-- A six-event fixture: six unseen notification rows under one path, the
oldest one (`when = 1`) having no associated actor row. -/
def storeSix : Store :=
  ⟨[⟨"a", 1, "/p", false, "g", "i"⟩, ⟨"a", 2, "/p", false, "g", "i"⟩,
    ⟨"a", 3, "/p", false, "g", "i"⟩, ⟨"a", 4, "/p", false, "g", "i"⟩,
    ⟨"a", 5, "/p", false, "g", "i"⟩, ⟨"a", 6, "/p", false, "g", "i"⟩],
   [⟨"a", 2, "/p", "u"⟩, ⟨"a", 3, "/p", "u"⟩, ⟨"a", 4, "/p", "u"⟩,
    ⟨"a", 5, "/p", "u"⟩, ⟨"a", 6, "/p", "u"⟩], []⟩

/-! ## Helper lemmas -/

/-- The `notifications_who` uniqueness check of the embedded `INSERT` is
full row equality (the four compared columns are all the columns). -/
theorem whoRow_pred_iff (q : WhoRow) (what : String) (whn : Int)
    (whr who : String) :
    ((q.what == what && q.when == whn && q.where_ == whr && q.who == who)
      = true) ↔ q = ⟨what, whn, whr, who⟩ := by
  cases q
  simp only [Bool.and_eq_true, beq_iff_eq, WhoRow.mk.injEq]
  tauto

/-- Inserting actor rows none of which collides with an existing row (and
which are pairwise distinct) appends them all and raises nothing. -/
theorem insertWhoRows_no_conflict (n : Notification) :
    ∀ (ws : List String) (s : Store), ws.Nodup →
      (∀ w ∈ ws,
        (⟨n.what, n.whenTs, n.where_, w⟩ : WhoRow) ∉ s.notifications_who) →
      insertWhoRows s n ws =
        ({ s with notifications_who := s.notifications_who ++
            ws.map (fun w => ⟨n.what, n.whenTs, n.where_, w⟩) }, none)
  | [], s, _, _ => by simp [insertWhoRows]
  | w :: ws, s, hnd, hni => by
    have hcond : (s.notifications_who.any (fun q =>
        q.what == n.what && q.when == n.whenTs &&
          q.where_ == n.where_ && q.who == w)) = false := by
      rw [List.any_eq_false]
      intro q hq
      rw [whoRow_pred_iff]
      intro hqe
      exact hni w (List.mem_cons_self w ws) (hqe ▸ hq)
    have hni' : ∀ w' ∈ ws, (⟨n.what, n.whenTs, n.where_, w'⟩ : WhoRow) ∉
        s.notifications_who ++ [⟨n.what, n.whenTs, n.where_, w⟩] := by
      intro w' hw' hmem
      rcases List.mem_append.mp hmem with hmem | hmem
      · exact hni w' (List.mem_cons_of_mem w hw') hmem
      · have : w' = w := by
          have := List.mem_singleton.mp hmem
          exact congrArg WhoRow.who this
        exact (List.nodup_cons.mp hnd).1 (this ▸ hw')
    have ih := insertWhoRows_no_conflict n ws
      { s with notifications_who :=
          s.notifications_who ++ [⟨n.what, n.whenTs, n.where_, w⟩] }
      (List.nodup_cons.mp hnd).2 hni'
    unfold insertWhoRows insertWhoRow
    rw [hcond]
    simp only [Bool.false_eq_true, if_false, ih, List.map_cons,
      List.append_assoc, List.singleton_append]

/-- A store whose key check fails lets `insertNotificationRow` append. -/
theorem storeNotification_fresh (s : Store) (n : Notification)
    (hex : _notificationExist s n = false)
    (hkey : s.notifications.any
      (fun r => r.sameKey n.what n.whenTs n.where_) = false)
    (hwho : ∀ w,
      (⟨n.what, n.whenTs, n.where_, w⟩ : WhoRow) ∉ s.notifications_who)
    (hnd : n.who.Nodup) :
    storeNotification ⟨some s⟩ n =
      (.ok (), ⟨some { s with
        notifications := s.notifications ++ [n.row],
        notifications_who := s.notifications_who ++
          n.who.map (fun w => ⟨n.what, n.whenTs, n.where_, w⟩) }⟩) := by
  have hins : insertNotificationRow s n.row =
      .ok { s with notifications := s.notifications ++ [n.row] } := by
    unfold insertNotificationRow
    have : (s.notifications.any
        (fun q => q.sameKey n.row.what n.row.when n.row.where_)) = false := by
      simpa [Notification.row] using hkey
    rw [this]
    simp
  have hrows := insertWhoRows_no_conflict n n.who
    { s with notifications := s.notifications ++ [n.row] } hnd
    (by intro w hw; exact hwho w)
  have hcreate : _createNotification s n =
      ({ s with
        notifications := s.notifications ++ [n.row],
        notifications_who := s.notifications_who ++
          n.who.map (fun w => ⟨n.what, n.whenTs, n.where_, w⟩) }, none) := by
    unfold _createNotification
    rw [hins]
    exact hrows
  simp [storeNotification, hex, hcreate]

/-- When the fresh-insert key collides with an existing row, the
`IntegrityError` of the very first `INSERT` is swallowed and the store is
left untouched. -/
theorem storeNotification_key_collision (s : Store) (n : Notification)
    (hex : _notificationExist s n = false)
    (hkey : s.notifications.any
      (fun r => r.sameKey n.what n.whenTs n.where_) = true) :
    storeNotification ⟨some s⟩ n = (.ok (), ⟨some s⟩) := by
  have hins : insertNotificationRow s n.row = .error .integrityError := by
    unfold insertNotificationRow
    have : (s.notifications.any
        (fun q => q.sameKey n.row.what n.row.when n.row.where_)) = true := by
      simpa [Notification.row] using hkey
    rw [this]
    simp
  have hcreate : _createNotification s n = (s, some .integrityError) := by
    unfold _createNotification
    rw [hins]
  simp [storeNotification, hex, hcreate]

/-- An empty pattern does not match a non-empty text, whatever the fuel. -/
theorem likeMatchF_nil_cons (f : Nat) (c : Char) (s : List Char) :
    likeMatchF f [] (c :: s) = false := by
  cases f <;> simp [likeMatchF]

/-- The bare `%` pattern matches everything (given enough fuel). -/
theorem likeMatchF_percent (f : Nat) (s : List Char)
    (h : 1 + s.length < f) : likeMatchF f ['%'] s = true := by
  induction s generalizing f with
  | nil =>
    obtain ⟨f', rfl⟩ : ∃ f', f = f' + 2 := ⟨f - 2, by omega⟩
    simp [likeMatchF]
  | cons c s' ih =>
    obtain ⟨f', rfl⟩ : ∃ f', f = f' + 1 := ⟨f - 1, by omega⟩
    have hlen : 1 + s'.length < f' := by
      simp only [List.length_cons] at h
      omega
    simp [likeMatchF, likeMatchF_nil_cons, ih f' hlen]

/-- For a wildcard-free pattern `p`, `LIKE` against `p` followed by `%` is
exactly: the ASCII-lowercased pattern is a prefix of the ASCII-lowercased
text. -/
theorem likeMatchF_trailing_percent (p : List Char)
    (hp : ∀ c ∈ p, c ≠ '%' ∧ c ≠ '_') :
    ∀ (s : List Char) (f : Nat), p.length + 1 + s.length < f →
    likeMatchF f (p ++ ['%']) s =
      (p.map asciiLower).isPrefixOf (s.map asciiLower) := by
  induction p with
  | nil =>
    intro s f h
    simp only [List.nil_append, List.map_nil]
    rw [likeMatchF_percent f s (by simpa using h)]
    simp [List.isPrefixOf]
  | cons c p' ih =>
    intro s f h
    obtain ⟨f', rfl⟩ : ∃ f', f = f' + 1 := ⟨f - 1, by omega⟩
    have hc := hp c (List.mem_cons_self c p')
    have hp' : ∀ a ∈ p', a ≠ '%' ∧ a ≠ '_' :=
      fun a ha => hp a (List.mem_cons_of_mem c ha)
    cases s with
    | nil =>
      simp [likeMatchF, hc.1, hc.2, List.isPrefixOf]
    | cons d s' =>
      have hlen : p'.length + 1 + s'.length < f' := by
        simp only [List.length_cons] at h
        omega
      simp [likeMatchF, hc.1, hc.2, List.isPrefixOf, ih hp' s' f' hlen]

/-- `likeMatch` with the trailing-`%` pattern the backend always uses,
when the subscription path itself is wildcard-free. -/
theorem likeMatch_trailing_percent (p s : List Char)
    (hp : ∀ c ∈ p, c ≠ '%' ∧ c ≠ '_') :
    likeMatch (p ++ ['%']) s =
      (p.map asciiLower).isPrefixOf (s.map asciiLower) := by
  unfold likeMatch
  exact likeMatchF_trailing_percent p hp s _ (by simp)

/-- `lastWhen` is `none` exactly on the empty table. -/
theorem lastWhen_eq_none (rs : List NotificationRow) :
    lastWhen rs = none ↔ rs = [] := by
  cases rs with
  | nil => simp [lastWhen]
  | cons r rs' =>
    simp only [lastWhen]
    cases lastWhen rs' <;> simp

/-- The value of `lastWhen` is the `when` of some row and bounds every
row's `when` from above. -/
theorem lastWhen_spec : ∀ (rs : List NotificationRow) (t : Int),
    lastWhen rs = some t →
    (∃ r ∈ rs, r.when = t) ∧ ∀ r ∈ rs, r.when ≤ t
  | [], t, h => by simp [lastWhen] at h
  | r :: rs', t, h => by
    simp only [lastWhen] at h
    cases hrs : lastWhen rs' with
    | none =>
      rw [hrs] at h
      obtain rfl : t = r.when := by
        cases h
        rfl
      obtain rfl : rs' = [] := (lastWhen_eq_none rs').mp hrs
      exact ⟨⟨r, List.mem_singleton.mpr rfl, rfl⟩, by simp⟩
    | some t' =>
      rw [hrs] at h
      obtain rfl : t = max r.when t' := by
        cases h
        rfl
      obtain ⟨⟨r', hr', hr'w⟩, hub⟩ := lastWhen_spec rs' t' hrs
      constructor
      · rcases max_choice r.when t' with hm | hm
        · exact ⟨r, List.mem_cons_self r rs', hm.symm⟩
        · exact ⟨r', List.mem_cons_of_mem r hr', by rw [hr'w, hm]⟩
      · intro q hq
        rcases List.mem_cons.mp hq with rfl | hq
        · exact le_max_left _ _
        · exact (hub q hq).trans (le_max_right _ _)

/-- A row without associated actor rows aggregates to an empty `who`. -/
theorem whoOf_eq_nil_of_not_hasWho (s : Store) (r : NotificationRow)
    (h : s.hasWho r = false) : s.whoOf r = [] := by
  unfold Store.hasWho at h
  rw [List.any_eq_false] at h
  unfold Store.whoOf
  rw [List.filter_eq_nil_iff.mpr (by intro w hw; exact h w hw)]
  rfl

/-- A row with at least one associated actor row aggregates to a
non-empty `who`. -/
theorem whoOf_ne_nil_of_hasWho (s : Store) (r : NotificationRow)
    (h : s.hasWho r = true) : s.whoOf r ≠ [] := by
  unfold Store.hasWho at h
  rw [List.any_eq_true] at h
  obtain ⟨w, hw, hpw⟩ := h
  unfold Store.whoOf
  intro hnil
  rw [List.map_eq_nil_iff] at hnil
  exact List.not_mem_nil w (hnil ▸ List.mem_filter.mpr ⟨hw, hpw⟩)

/-- Bridge from the decidable three-column key freshness check to
non-membership of any actor row carrying that key. -/
theorem whoRows_fresh_of_all (s : Store) (n : Notification)
    (h : s.notifications_who.all (fun q =>
      !(q.what == n.what && q.when == n.whenTs && q.where_ == n.where_))
      = true) :
    ∀ w, (⟨n.what, n.whenTs, n.where_, w⟩ : WhoRow) ∉ s.notifications_who := by
  intro w hmem
  have hq := List.all_eq_true.mp h _ hmem
  simp at hq

/-! ## Claims -/

/-- C1: the claim says that merging a second notification with equal
(`what`, `where`, `info`) while the first is unseen grows the stored
event's actor set to the union, for every choice of the second timestamp.
The code evaluated at `n1 = (edited, 100, /a, [bob], X)` then
`n2 = (edited, 200, /a, [alice], X)` shows the merge inserts the actor
row keyed by the NEW timestamp (200): the stored event (`when = 100`)
still has actor set `[bob]` and the `alice` row is orphaned under a key
with no notification row. -/
theorem C1_merge_uses_new_timestamp :
    storeNotification ⟨some ⟨[⟨"edited", 100, "/a", false, "g", "X"⟩],
        [⟨"edited", 100, "/a", "bob"⟩], []⟩⟩
      ⟨"edited", 200, "/a", ["alice"], "g", false, "X"⟩ =
      (.ok (), ⟨some ⟨[⟨"edited", 100, "/a", false, "g", "X"⟩],
        [⟨"edited", 100, "/a", "bob"⟩, ⟨"edited", 200, "/a", "alice"⟩], []⟩⟩) ∧
    Store.whoOf ⟨[⟨"edited", 100, "/a", false, "g", "X"⟩],
        [⟨"edited", 100, "/a", "bob"⟩, ⟨"edited", 200, "/a", "alice"⟩], []⟩
      ⟨"edited", 100, "/a", false, "g", "X"⟩ = ["bob"] := by
  constructor <;> rfl

/-- C2: the claim says `clean()` deletes notifications older than 7 days
and does not raise.  The embedded code shows that on every open session
`clean` raises `OperationalError` (the statement `REMOVE FROM ...` is not
SQL) and leaves the store untouched. -/
theorem C2_clean_raises (s : Store) (now : Int) :
    clean ⟨some s⟩ now = (.error .operationalError, ⟨some s⟩) := rfl

/-- C3 (counterexample): the claim says every listed operation degrades to
a no-op or default on a closed session; `setSeen` instead raises
`AttributeError` (the source has no `if self.db is None` guard there). -/
theorem C3_cex_setSeen_raises :
    setSeen ⟨none⟩ none = (.error .attributeError, ⟨none⟩) := rfl

/-- C3 (amended): on a closed session, `storeNotification`,
`removeNotification`, the three list reads, `getUnseenCount` and
`getLastNotificationTime` do degrade to no-op/default; but `setSeen`,
`clean`, `saveSubscription`, `getSubscription` and `getSubscriptions`
raise `AttributeError` instead (calling `execute` on `None`). -/
theorem C3_closed_session_behavior (n : Notification) (sub : Subscription)
    (now : Int) (path : Option String) (whr : String) :
    storeNotification ⟨none⟩ n = (.ok (), ⟨none⟩) ∧
    removeNotification ⟨none⟩ n = (.ok (), ⟨none⟩) ∧
    getHotNotifications ⟨none⟩ = (.ok [], ⟨none⟩) ∧
    getAllNotifications ⟨none⟩ = (.ok [], ⟨none⟩) ∧
    getUnseenNotifications ⟨none⟩ = (.ok [], ⟨none⟩) ∧
    getUnseenCount ⟨none⟩ = (.ok 0, ⟨none⟩) ∧
    getLastNotificationTime ⟨none⟩ now = (.ok (now - 7 * 86400), ⟨none⟩) ∧
    setSeen ⟨none⟩ path = (.error .attributeError, ⟨none⟩) ∧
    clean ⟨none⟩ now = (.error .attributeError, ⟨none⟩) ∧
    saveSubscription ⟨none⟩ sub = (.error .attributeError, ⟨none⟩, none) ∧
    getSubscription ⟨none⟩ whr = (.error .attributeError, ⟨none⟩) ∧
    getSubscriptions ⟨none⟩ = (.error .attributeError, ⟨none⟩) := by
  refine ⟨rfl, rfl, rfl, rfl, rfl, rfl, rfl, ?_, rfl, rfl, rfl, rfl⟩
  cases path <;> rfl

/-- C4 (counterexample): the claim says a notification with empty `who`
persists nothing; storing one into an empty store persists a notification
row with zero associated actor rows. -/
theorem C4_cex_empty_who_persisted :
    storeNotification ⟨some ⟨[], [], []⟩⟩ ⟨"a", 1, "/x", [], "g", false, "i"⟩ =
      (.ok (), ⟨some ⟨[⟨"a", 1, "/x", false, "g", "i"⟩], [], []⟩⟩) := rfl

/-- C4 (amended): the write path does not enforce the invariant: a fresh
insert (no unseen (`what`, `where`, `info`) match, fresh keys in both
tables, duplicate-free `who`) persists the notification row together with
exactly one actor row per element of `who`; in particular an empty `who`
persists the row with no actor rows at all. -/
theorem C4_empty_who_store_shape (s : Store) (n : Notification)
    (hex : _notificationExist s n = false)
    (hkey : s.notifications.any
      (fun r => r.sameKey n.what n.whenTs n.where_) = false)
    (hwho : s.notifications_who.all (fun q =>
      !(q.what == n.what && q.when == n.whenTs && q.where_ == n.where_))
      = true)
    (hnd : n.who.Nodup) :
    storeNotification ⟨some s⟩ n =
      (.ok (), ⟨some { s with
        notifications := s.notifications ++ [n.row],
        notifications_who := s.notifications_who ++
          n.who.map (fun w => ⟨n.what, n.whenTs, n.where_, w⟩) }⟩) ∧
    (n.who = [] →
      storeNotification ⟨some s⟩ n =
        (.ok (), ⟨some { s with
          notifications := s.notifications ++ [n.row] }⟩)) := by
  have h1 := storeNotification_fresh s n hex hkey
    (whoRows_fresh_of_all s n hwho) hnd
  refine ⟨h1, fun hemp => ?_⟩
  rw [h1, hemp]
  simp

/-- C4 (witness for the amended theorem at a concrete input, the
empty-`who` case included). -/
theorem C4_witness :
    (storeNotification ⟨some ⟨[], [], []⟩⟩ ⟨"a", 1, "/x", [], "g", false, "i"⟩ =
      (.ok (), ⟨some ⟨[⟨"a", 1, "/x", false, "g", "i"⟩], [], []⟩⟩)) ∧
    (([] : List String) = [] →
      storeNotification ⟨some ⟨[], [], []⟩⟩
          ⟨"a", 1, "/x", [], "g", false, "i"⟩ =
        (.ok (), ⟨some ⟨[⟨"a", 1, "/x", false, "g", "i"⟩], [], []⟩⟩)) :=
  C4_empty_who_store_shape ⟨[], [], []⟩ ⟨"a", 1, "/x", [], "g", false, "i"⟩
    rfl rfl rfl List.nodup_nil

/-- C5 (counterexample): the claim says notifications whose `where` does
not start with the subscription path are unchanged; SQLite's `LIKE` is
ASCII-case-insensitive, so saving `wants = false` for "/a" deletes the
stored notification at "/A/b" even though "/a" is not a prefix of
"/A/b". -/
theorem C5_cex_case_insensitive_delete :
    (saveSubscription ⟨some ⟨[⟨"e", 1, "/A/b", false, "g", "i"⟩], [], []⟩⟩
        ⟨"/a", some false⟩ =
      (.ok (), ⟨some ⟨[], [], [⟨"/a", false⟩]⟩⟩,
        some (.blacklistedEvent "/a"))) ∧
    "/a".data.isPrefixOf "/A/b".data = false := ⟨rfl, by decide⟩

/-- C5 (amended): for `wants` false or null and a wildcard-free
subscription path, `saveSubscription` on an open session deletes exactly
the notifications whose ASCII-lowercased `where` has the ASCII-lowercased
subscription path as a prefix (SQLite `LIKE` semantics), keeps the rest,
additionally deletes the subscription row when `wants` is null, and does
not raise. -/
theorem C5_like_prefix_delete (s : Store) (sub : Subscription)
    (hw : sub.wants = none ∨ sub.wants = some false)
    (hpat : ∀ c ∈ sub.where_.data, c ≠ '%' ∧ c ≠ '_') :
    ((saveSubscription ⟨some s⟩ sub).2.1.db.map Store.notifications =
      some (s.notifications.filter (fun r =>
        !((sub.where_.data.map asciiLower).isPrefixOf
            (r.where_.data.map asciiLower))))) ∧
    (sub.wants = none →
      (saveSubscription ⟨some s⟩ sub).2.1.db.map Store.subscriptions =
        some (s.subscriptions.filter (fun r => !(r.where_ == sub.where_)))) ∧
    (saveSubscription ⟨some s⟩ sub).1 = .ok () := by
  have hlike : ∀ r : NotificationRow,
      likePrefixPat sub.where_ r.where_ =
        (sub.where_.data.map asciiLower).isPrefixOf
          (r.where_.data.map asciiLower) := by
    intro r
    unfold likePrefixPat
    exact likeMatch_trailing_percent _ _ hpat
  rcases hw with hw | hw
  · simp [saveSubscription, hw, hlike]
  · simp [saveSubscription, hw, hlike]
    split <;> rfl

/-- C5 (witness): the amended theorem applied to a one-notification store
and the revoking subscription ⟨"/a", none⟩. -/
theorem C5_witness :
    ((saveSubscription ⟨some ⟨[⟨"e", 1, "/a/b", false, "g", "i"⟩], [], []⟩⟩
        ⟨"/a", none⟩).2.1.db.map Store.notifications =
      some ([⟨"e", 1, "/a/b", false, "g", "i"⟩].filter
        (fun r : NotificationRow =>
          !(("/a".data.map asciiLower).isPrefixOf
              (r.where_.data.map asciiLower))))) ∧
    ((⟨"/a", none⟩ : Subscription).wants = none →
      (saveSubscription ⟨some ⟨[⟨"e", 1, "/a/b", false, "g", "i"⟩], [], []⟩⟩
        ⟨"/a", none⟩).2.1.db.map Store.subscriptions =
        some (([] : List SubscriptionRow).filter
          (fun r => !(r.where_ == "/a")))) ∧
    (saveSubscription ⟨some ⟨[⟨"e", 1, "/a/b", false, "g", "i"⟩], [], []⟩⟩
        ⟨"/a", none⟩).1 = .ok () :=
  C5_like_prefix_delete ⟨[⟨"e", 1, "/a/b", false, "g", "i"⟩], [], []⟩
    ⟨"/a", none⟩ (Or.inl rfl) (by decide)

/-- C6 (counterexample): the claim says that when only a seen event
matches (`what`, `where`, `info`), a new separate unseen event is created;
when the incoming notification also collides on the storage key
(`what`, `when`, `where`), the insert's `IntegrityError` is swallowed and
nothing is created. -/
theorem C6_cex_key_collision_drops :
    storeNotification ⟨some ⟨[⟨"e", 100, "/a", true, "g", "i"⟩],
        [⟨"e", 100, "/a", "u"⟩], []⟩⟩
      ⟨"e", 100, "/a", ["x"], "g", false, "i"⟩ =
      (.ok (), ⟨some ⟨[⟨"e", 100, "/a", true, "g", "i"⟩],
        [⟨"e", 100, "/a", "u"⟩], []⟩⟩) := rfl

/-- C6 (amended): when no unseen (`what`, `where`, `info`) match exists
(in particular when every match is already seen), the store never merges:
on a storage-key collision the store is left unchanged, and otherwise
(fresh keys, duplicate-free `who`) a new separate row is created carrying
the incoming notification's fields. -/
theorem C6_seen_no_merge (s : Store) (n : Notification)
    (hex : _notificationExist s n = false) :
    (s.notifications.any
        (fun r => r.sameKey n.what n.whenTs n.where_) = true →
      storeNotification ⟨some s⟩ n = (.ok (), ⟨some s⟩)) ∧
    (s.notifications.any
        (fun r => r.sameKey n.what n.whenTs n.where_) = false →
      s.notifications_who.all (fun q =>
        !(q.what == n.what && q.when == n.whenTs && q.where_ == n.where_))
        = true →
      n.who.Nodup →
      storeNotification ⟨some s⟩ n =
        (.ok (), ⟨some { s with
          notifications := s.notifications ++ [n.row],
          notifications_who := s.notifications_who ++
            n.who.map (fun w => ⟨n.what, n.whenTs, n.where_, w⟩) }⟩)) :=
  ⟨fun hkey => storeNotification_key_collision s n hex hkey,
   fun hkey hwho hnd => storeNotification_fresh s n hex hkey
     (whoRows_fresh_of_all s n hwho) hnd⟩

/-- C6 (witness): the amended theorem at the seen-only store, where the
incoming notification collides on the storage key. -/
theorem C6_witness :
    ((⟨[⟨"e", 100, "/a", true, "g", "i"⟩], [⟨"e", 100, "/a", "u"⟩], []⟩ :
        Store).notifications.any
        (fun r => r.sameKey "e" 100 "/a") = true →
      storeNotification ⟨some ⟨[⟨"e", 100, "/a", true, "g", "i"⟩],
          [⟨"e", 100, "/a", "u"⟩], []⟩⟩
        ⟨"e", 100, "/a", ["x"], "g", false, "i"⟩ =
        (.ok (), ⟨some ⟨[⟨"e", 100, "/a", true, "g", "i"⟩],
          [⟨"e", 100, "/a", "u"⟩], []⟩⟩)) ∧
    ((⟨[⟨"e", 100, "/a", true, "g", "i"⟩], [⟨"e", 100, "/a", "u"⟩], []⟩ :
        Store).notifications.any
        (fun r => r.sameKey "e" 100 "/a") = false →
      (⟨[⟨"e", 100, "/a", true, "g", "i"⟩], [⟨"e", 100, "/a", "u"⟩], []⟩ :
        Store).notifications_who.all (fun q =>
        !(q.what == "e" && q.when == (100 : Int) && q.where_ == "/a"))
        = true →
      (["x"] : List String).Nodup →
      storeNotification ⟨some ⟨[⟨"e", 100, "/a", true, "g", "i"⟩],
          [⟨"e", 100, "/a", "u"⟩], []⟩⟩
        ⟨"e", 100, "/a", ["x"], "g", false, "i"⟩ =
        (.ok (), ⟨some ⟨[⟨"e", 100, "/a", true, "g", "i"⟩, ⟨"e", 100, "/a",
            false, "g", "i"⟩],
          [⟨"e", 100, "/a", "u"⟩, ⟨"e", 100, "/a", "x"⟩], []⟩⟩)) :=
  C6_seen_no_merge ⟨[⟨"e", 100, "/a", true, "g", "i"⟩],
    [⟨"e", 100, "/a", "u"⟩], []⟩ ⟨"e", 100, "/a", ["x"], "g", false, "i"⟩ rfl

/-- C7: `getHotNotifications` returns at most 5 aggregated events, ordered
unseen-first (`seen` ascending) and, within each seen class, newest-first
(`when` descending) — i.e. pairwise in the `hotOrder` relation. -/
theorem C7_hot_limit_and_order (b : Backend) (l : List GroupedRow)
    (b' : Backend) (h : getHotNotifications b = (.ok l, b')) :
    l.length ≤ 5 ∧ l.Pairwise hotOrder := by
  cases hb : b.db with
  | none =>
    unfold getHotNotifications at h
    rw [hb] at h
    injection h with h1 h2
    injection h1 with h1
    subst h1
    simp
  | some s =>
    unfold getHotNotifications at h
    rw [hb] at h
    injection h with h1 h2
    injection h1 with h1
    subst h1
    constructor
    · exact List.length_take_le 5 _
    · exact ((List.sorted_insertionSort hotOrder
        (s.notifications.map s.groupRow))).sublist (List.take_sublist 5 _)

/-- C7 (witness): the theorem at the six-event fixture, whose hot list is
the five newest unseen events. -/
theorem C7_witness :
    ([⟨"a", 6, "/p", ["u"], "g", false, "i"⟩,
      ⟨"a", 5, "/p", ["u"], "g", false, "i"⟩,
      ⟨"a", 4, "/p", ["u"], "g", false, "i"⟩,
      ⟨"a", 3, "/p", ["u"], "g", false, "i"⟩,
      ⟨"a", 2, "/p", ["u"], "g", false, "i"⟩] : List GroupedRow).length ≤ 5 ∧
    ([⟨"a", 6, "/p", ["u"], "g", false, "i"⟩,
      ⟨"a", 5, "/p", ["u"], "g", false, "i"⟩,
      ⟨"a", 4, "/p", ["u"], "g", false, "i"⟩,
      ⟨"a", 3, "/p", ["u"], "g", false, "i"⟩,
      ⟨"a", 2, "/p", ["u"], "g", false, "i"⟩] : List GroupedRow).Pairwise
      hotOrder :=
  C7_hot_limit_and_order ⟨some storeSix⟩ _ ⟨some storeSix⟩ rfl

/-- C8 (counterexample): the claim says an actor-less event row is always
included in `getHotNotifications()`; at the six-event fixture the
`LIMIT 5` truncates the hot list to the five newest unseen events and the
actor-less row (`when = 1`, sorted last) is excluded. -/
theorem C8_cex_hot_limit_excludes :
    getHotNotifications ⟨some storeSix⟩ =
      (.ok [⟨"a", 6, "/p", ["u"], "g", false, "i"⟩,
            ⟨"a", 5, "/p", ["u"], "g", false, "i"⟩,
            ⟨"a", 4, "/p", ["u"], "g", false, "i"⟩,
            ⟨"a", 3, "/p", ["u"], "g", false, "i"⟩,
            ⟨"a", 2, "/p", ["u"], "g", false, "i"⟩], ⟨some storeSix⟩) ∧
    (⟨"a", 1, "/p", false, "g", "i"⟩ : NotificationRow) ∈
      storeSix.notifications ∧
    storeSix.hasWho ⟨"a", 1, "/p", false, "g", "i"⟩ = false := by
  refine ⟨rfl, by decide, rfl⟩

/-- C8 (amended): a notification row with zero actor rows is excluded from
`getAllNotifications()` and is included in `getHotNotifications()` with an
empty actor list provided the store holds at most 5 notification rows
(so that the `LIMIT 5` cannot truncate it away). -/
theorem C8_actorless_visibility (s : Store) (r : NotificationRow)
    (hmem : r ∈ s.notifications)
    (hlen : s.notifications.length ≤ 5)
    (hwho : s.hasWho r = false) :
    (s.groupRow r).who = [] ∧
    s.groupRow r ∈ ((getHotNotifications ⟨some s⟩).1.toOption.getD []) ∧
    s.groupRow r ∉ ((getAllNotifications ⟨some s⟩).1.toOption.getD []) := by
  have hwnil : (s.groupRow r).who = [] := whoOf_eq_nil_of_not_hasWho s r hwho
  refine ⟨hwnil, ?_, ?_⟩
  · show s.groupRow r ∈
      ((s.notifications.map s.groupRow).insertionSort hotOrder).take 5
    have hlen2 :
        ((s.notifications.map s.groupRow).insertionSort hotOrder).length ≤
          5 := by
      rw [List.length_insertionSort, List.length_map]
      exact hlen
    rw [List.take_of_length_le hlen2, List.mem_insertionSort]
    exact List.mem_map_of_mem _ hmem
  · show s.groupRow r ∉
      ((s.notifications.filter s.hasWho).map s.groupRow).insertionSort
        whenDesc
    rw [List.mem_insertionSort]
    intro hin
    obtain ⟨r', hr', heq⟩ := List.mem_map.mp hin
    have hhw : s.hasWho r' = true := (List.mem_filter.mp hr').2
    apply whoOf_ne_nil_of_hasWho s r' hhw
    show (s.groupRow r').who = []
    rw [heq]
    exact hwnil

/-- C8 (witness): the amended theorem at a one-row store whose only row
has no actor rows. -/
theorem C8_witness :
    ((⟨[⟨"a", 1, "/p", false, "g", "i"⟩], [], []⟩ : Store).groupRow
      ⟨"a", 1, "/p", false, "g", "i"⟩).who = [] ∧
    (⟨[⟨"a", 1, "/p", false, "g", "i"⟩], [], []⟩ : Store).groupRow
      ⟨"a", 1, "/p", false, "g", "i"⟩ ∈
      ((getHotNotifications ⟨some ⟨[⟨"a", 1, "/p", false, "g", "i"⟩],
        [], []⟩⟩).1.toOption.getD []) ∧
    (⟨[⟨"a", 1, "/p", false, "g", "i"⟩], [], []⟩ : Store).groupRow
      ⟨"a", 1, "/p", false, "g", "i"⟩ ∉
      ((getAllNotifications ⟨some ⟨[⟨"a", 1, "/p", false, "g", "i"⟩],
        [], []⟩⟩).1.toOption.getD []) :=
  C8_actorless_visibility ⟨[⟨"a", 1, "/p", false, "g", "i"⟩], [], []⟩
    ⟨"a", 1, "/p", false, "g", "i"⟩ (by decide) (by decide) rfl

/-- C9: `getLastNotificationTime` returns "now minus 7 days" on a closed
session and on an empty store (the bare `except` turns the failed read
into the default), and on a non-empty store returns the greatest stored
timestamp. -/
theorem C9_last_notification_time (b : Backend) (now : Int) :
    (b.db = none →
      getLastNotificationTime b now = (.ok (now - 7 * 86400), b)) ∧
    (∀ s, b.db = some s → s.notifications = [] →
      getLastNotificationTime b now = (.ok (now - 7 * 86400), b)) ∧
    (∀ s t, b.db = some s →
      (getLastNotificationTime b now).1 = .ok t →
      s.notifications ≠ [] →
      (∃ r ∈ s.notifications, r.when = t) ∧
        ∀ r ∈ s.notifications, r.when ≤ t) := by
  refine ⟨?_, ?_, ?_⟩
  · intro hb
    unfold getLastNotificationTime
    rw [hb]
  · intro s hb hnil
    have hred : getLastNotificationTime b now =
        (match lastWhen s.notifications with
         | none => (Except.ok (now - 7 * 86400), b)
         | some t => (Except.ok t, b)) := by
      unfold getLastNotificationTime
      rw [hb]
    rw [hred, hnil]
    rfl
  · intro s t hb hret hne
    have hred : getLastNotificationTime b now =
        (match lastWhen s.notifications with
         | none => (Except.ok (now - 7 * 86400), b)
         | some t => (Except.ok t, b)) := by
      unfold getLastNotificationTime
      rw [hb]
    rw [hred] at hret
    cases hlw : lastWhen s.notifications with
    | none => exact absurd ((lastWhen_eq_none _).mp hlw) hne
    | some t' =>
      rw [hlw] at hret
      have hret' : (Except.ok t' : Except PyError Int) = .ok t := hret
      injection hret' with hret'
      subst hret'
      exact lastWhen_spec s.notifications t' hlw

/-- C9 (witness): the empty-store branch at a fresh store. -/
theorem C9_witness :
    getLastNotificationTime ⟨some ⟨[], [], []⟩⟩ 1000000 =
      (.ok (1000000 - 7 * 86400), ⟨some ⟨[], [], []⟩⟩) :=
  (C9_last_notification_time ⟨some ⟨[], [], []⟩⟩ 1000000).2.1
    ⟨[], [], []⟩ rfl rfl

/-- C10: `saveSubscription` with `wants = null` dispatches a
`BlacklistedEvent` for the subscription path — the same event an explicit
`wants = false` dispatches — and no `wants` value leaves the
domain-event surface silent on an open session. -/
theorem C10_revoke_emits_blacklist (s : Store) (sub : Subscription)
    (h : sub.wants = none) :
    (saveSubscription ⟨some s⟩ sub).2.2 =
      some (.blacklistedEvent sub.where_) ∧
    (saveSubscription ⟨some s⟩ sub).2.2 =
      (saveSubscription ⟨some s⟩ ⟨sub.where_, some false⟩).2.2 ∧
    (saveSubscription ⟨some s⟩ ⟨sub.where_, some true⟩).2.2 ≠ none ∧
    (saveSubscription ⟨some s⟩ ⟨sub.where_, some false⟩).2.2 ≠ none ∧
    (saveSubscription ⟨some s⟩ sub).2.2 ≠ none := by
  refine ⟨?_, ?_, ?_, ?_, ?_⟩ <;> simp [saveSubscription, h]

/-- C10 (witness): the theorem at an empty store and the revoking
subscription ⟨"/a", none⟩. -/
theorem C10_witness :
    (saveSubscription ⟨some ⟨[], [], []⟩⟩ ⟨"/a", none⟩).2.2 =
      some (.blacklistedEvent "/a") ∧
    (saveSubscription ⟨some ⟨[], [], []⟩⟩ ⟨"/a", none⟩).2.2 =
      (saveSubscription ⟨some ⟨[], [], []⟩⟩ ⟨"/a", some false⟩).2.2 ∧
    (saveSubscription ⟨some ⟨[], [], []⟩⟩ ⟨"/a", some true⟩).2.2 ≠ none ∧
    (saveSubscription ⟨some ⟨[], [], []⟩⟩ ⟨"/a", some false⟩).2.2 ≠ none ∧
    (saveSubscription ⟨some ⟨[], [], []⟩⟩ ⟨"/a", none⟩).2.2 ≠ none :=
  C10_revoke_emits_blacklist ⟨[], [], []⟩ ⟨"/a", none⟩ rfl
